import Mathlib

/-!
Verification development for the Provider Registry of the podman-desktop
repository (src/unnamed/part_001, second `ProviderRegistry` class).

The TypeScript registry is shallowly embedded: JS `Map`s become
insertion-ordered association lists, promises become `Except String`
outcomes, event fan-out becomes explicit event lists, and the periodic
status-reconciliation tick becomes a function parameterized by the values
the lifecycles' `status()` calls return on that tick.
-/

namespace ProviderRegistry

/-! ### Association-list model of JS `Map`

JS `Map.set` replaces the value of an existing key in place (keeping its
insertion position) or appends a new entry; `Map.delete` removes the entry;
iteration order is insertion order. -/

def mget {α : Type} : List (String × α) → String → Option α
  | [], _ => none
  | (k', v) :: rest, k => if k' = k then some v else mget rest k

def mset {α : Type} : List (String × α) → String → α → List (String × α)
  | [], k, v => [(k, v)]
  | (k', v') :: rest, k, v =>
    if k' = k then (k, v) :: rest else (k', v') :: mset rest k v

def mdel {α : Type} (m : List (String × α)) (k : String) : List (String × α) :=
  m.filter (fun kv => kv.1 ≠ k)

/-- Key set (insertion order) of a map, as `Array.from(map.keys())`. -/
def mkeys {α : Type} (m : List (String × α)) : List String := m.map Prod.fst

/-! ### Data model -/

instance {ε α : Type} [DecidableEq ε] [DecidableEq α] : DecidableEq (Except ε α)
  | .ok a, .ok b =>
    if h : a = b then .isTrue (h ▸ rfl) else .isFalse (fun hh => h (Except.ok.inj hh))
  | .ok _, .error _ => .isFalse Except.noConfusion
  | .error _, .ok _ => .isFalse Except.noConfusion
  | .error a, .error b =>
    if h : a = b then .isTrue (h ▸ rfl) else .isFalse (fun hh => h (Except.error.inj hh))

/-- Optional lifecycle of a container connection: each of `start`, `stop`,
`delete` is independently present; when present, invoking it yields the
recorded asynchronous outcome (`.ok` for a resolved promise, `.error msg`
for a rejected one). -/
structure ConnLifecycle where
  start : Option (Except String Unit)
  stop : Option (Except String Unit)
  delete : Option (Except String Unit)
deriving DecidableEq, Repr

/-- A `ContainerProviderConnection`: `status` is the value its `status()`
poll currently returns. -/
structure ContainerConnection where
  name : String
  type : String
  socketPath : String
  status : String
  lifecycle : Option ConnLifecycle
deriving DecidableEq, Repr

structure KubernetesConnection where
  name : String
  apiURL : String
  status : String
deriving DecidableEq, Repr

/-- Modelled from the spec: the Provider entity (`provider-impl.ts` is not
among the provided sources). Identity (`id`, `internalId`), attributes and
owned connections follow spec section 3; `status` is the provider's stored
status, updated by the reconciliation loop. -/
structure ProviderImpl where
  id : String
  internalId : String
  name : String
  status : String
  version : Option String
  containerConnections : List ContainerConnection
  kubernetesConnections : List KubernetesConnection
  hasConnectionFactory : Bool
deriving DecidableEq, Repr

/-- Modelled from the spec: `updateStatus` stores the new status on the
provider (spec section 4.1, status reconciliation loop: "updates the
provider's stored status"). -/
def ProviderImpl.updateStatus (p : ProviderImpl) (s : String) : ProviderImpl :=
  { p with status := s }

/-- A registered `ProviderLifecycle` capability. Its `status()` poll is
supplied externally at each reconciliation tick (see `tick`); `start` and
`stop` record the outcomes of the corresponding asynchronous calls. -/
structure ProviderLifecycle where
  hasInitialize : Bool
  start : Except String Unit
  stop : Except String Unit
deriving DecidableEq, Repr

structure CheckResult where
  successful : Bool
  description : String
  docLinks : Option String
deriving DecidableEq, Repr

/-- One pre-flight check: `execute` is the outcome of the asynchronous
`check.execute()` call — either a result object or a thrown error whose
message is recorded. -/
structure PreflightCheck where
  title : String
  execute : Except String CheckResult
deriving DecidableEq, Repr

/-- A `ProviderInstallation` or `ProviderUpdate` capability: optional
`preflightChecks()` supplier and (for updates) a version. -/
structure InstallOrUpdate where
  preflightChecks : Option (List PreflightCheck)
  version : String
deriving DecidableEq, Repr

/-- A `ProviderAutostart` capability; `start` records the outcome of its
asynchronous `start(logger)` call. -/
structure Autostart where
  name : String
  start : Except String Unit
deriving DecidableEq, Repr

/-- Options passed to `createProvider`. -/
structure ProviderOptions where
  name : String
  id : String
  status : String
  version : Option String
deriving DecidableEq, Repr

/-- The mutable state of the `ProviderRegistry` class. Listener lists hold
listener identities (JS compares listeners with `===`); the context maps
record which keys currently own a `LifecycleContextImpl` (the context's
content plays no role in the registry logic). -/
structure RegistryState where
  count : Nat
  providers : List (String × ProviderImpl)
  providerStatuses : List (String × String)
  providerLifecycles : List (String × ProviderLifecycle)
  providerLifecycleContexts : List String
  providerInstallations : List (String × InstallOrUpdate)
  providerUpdates : List (String × InstallOrUpdate)
  providerAutostarts : List (String × Autostart)
  connectionLifecycleContexts : List ContainerConnection
  listeners : List Nat
  lifecycleListeners : List Nat
  containerConnectionLifecycleListeners : List Nat
deriving DecidableEq, Repr

def RegistryState.initial : RegistryState :=
  { count := 0, providers := [], providerStatuses := [], providerLifecycles := []
    providerLifecycleContexts := [], providerInstallations := [], providerUpdates := []
    providerAutostarts := [], connectionLifecycleContexts := []
    listeners := [], lifecycleListeners := [], containerConnectionLifecycleListeners := [] }

/-! ### Decimal rendering of the internal counter

`createProvider` computes the new provider's internalId as the template
string of the current counter value; this is decimal rendering of a
natural number. -/

def digitChar (d : Nat) : Char := Char.ofNat (48 + d)

/-- Least-significant-first decimal digits of a positive number; `[]` for 0. -/
def decDigitsRev : Nat → List Nat
  | 0 => []
  | n + 1 => ((n + 1) % 10) :: decDigitsRev ((n + 1) / 10)
decreasing_by exact Nat.div_lt_self (Nat.succ_pos n) (by omega)

/-- Decimal rendering of a natural number, as JS string interpolation does. -/
def natToStr (n : Nat) : String :=
  if n = 0 then "0" else String.mk ((decDigitsRev n).reverse.map digitChar)

/-! ### Registry operations -/

/-- One provider key's worth of work inside the reconciliation tick:
if the key still has a provider and a registered lifecycle, poll the
lifecycle's `status()` (the value is supplied by `poll`); when it differs
from the last observed value, update the provider's stored status, notify
the provider-event listeners with `provider:update-status`, and record the
new value in `providerStatuses`. -/
def tickStep (poll : String → String) (s : RegistryState) (k : String) :
    RegistryState × List (String × String) :=
  match mget s.providers k, mget s.providerLifecycles k with
  | some p, some _ =>
    let status := poll k
    if mget s.providerStatuses k ≠ some status then
      ({ s with
          providers := mset s.providers k (p.updateStatus status)
          providerStatuses := mset s.providerStatuses k status },
        [("provider:update-status", k)])
    else (s, [])
  | _, _ => (s, [])

def tickGo (poll : String → String) (keys : List String) (s : RegistryState) :
    RegistryState × List (String × String) :=
  match keys with
  | [] => (s, [])
  | k :: ks =>
    let r1 := tickStep poll s k
    let r2 := tickGo poll ks r1.1
    (r2.1, r1.2 ++ r2.2)

/-- One run of the `setInterval` body: iterate over a snapshot of the
provider keys taken at the start of the tick. -/
def tick (s : RegistryState) (poll : String → String) :
    RegistryState × List (String × String) :=
  tickGo poll (mkeys s.providers) s

/-- `createProvider`: assigns internalId from the monotonic counter,
increments it, stores the provider, and notifies listeners / telemetry /
the api sender. The `ProviderImpl` construction is modelled from the spec
(`provider-impl.ts` is not among the provided sources): the provider adopts
the options' identity and attributes and starts with no connections. -/
def createProvider (s : RegistryState) (opts : ProviderOptions) :
    RegistryState × ProviderImpl × List String :=
  let id := natToStr s.count
  let providerImpl : ProviderImpl :=
    { id := opts.id, internalId := id, name := opts.name, status := opts.status
      version := opts.version, containerConnections := [], kubernetesConnections := []
      hasConnectionFactory := false }
  ({ s with count := s.count + 1, providers := mset s.providers id providerImpl },
    providerImpl,
    ["provider:create", "createProvider", "provider-create"])

/-- `disposeProvider`: removes the provider from the collection and
notifies listeners and the api sender. The counter is untouched. -/
def disposeProvider (s : RegistryState) (p : ProviderImpl) :
    RegistryState × List String :=
  ({ s with providers := mdel s.providers p.internalId },
    ["provider:delete", "provider-delete"])

def ctxAdd (l : List String) (k : String) : List String :=
  if l.contains k then l else l ++ [k]

def ctxDel (l : List String) (k : String) : List String :=
  l.filter (fun x => x ≠ k)

/-- `registerLifecycle`: attaches the lifecycle and a fresh
`LifecycleContextImpl` under the provider's internalId, then notifies the
lifecycle listeners. -/
def registerLifecycle (s : RegistryState) (p : ProviderImpl) (lf : ProviderLifecycle) :
    RegistryState × List String :=
  ({ s with
      providerLifecycles := mset s.providerLifecycles p.internalId lf
      providerLifecycleContexts := ctxAdd s.providerLifecycleContexts p.internalId },
    ["provider:register-lifecycle"])

/-- Effect of disposing the handle returned by `registerLifecycle`: both
the lifecycle and its context are deleted and lifecycle listeners are
notified with `provider:removal-lifecycle`. -/
def registerLifecycleDispose (internalId : String) (s : RegistryState) :
    RegistryState × List String :=
  ({ s with
      providerLifecycles := mdel s.providerLifecycles internalId
      providerLifecycleContexts := ctxDel s.providerLifecycleContexts internalId },
    ["provider:removal-lifecycle"])

/-- `startProviderLifecycle`: looks up the provider, its lifecycle and its
context (each lookup throws a not-found error), notifies lifecycle
listeners before the asynchronous `start`, and after it only when it
resolves; a rejection propagates. Returns the lifecycle-listener event
names emitted together with the outcome. -/
def startProviderLifecycle (s : RegistryState) (providerId : String) :
    List String × Except String Unit :=
  match mget s.providers providerId with
  | none => ([], .error ("no provider matching provider id " ++ providerId))
  | some _ =>
    match mget s.providerLifecycles providerId with
    | none => ([], .error ("no provider lifecycle matching provider id " ++ providerId))
    | some lf =>
      if s.providerLifecycleContexts.contains providerId then
        match lf.start with
        | .ok _ =>
          (["provider:before-start-lifecycle", "provider:after-start-lifecycle"], .ok ())
        | .error e => (["provider:before-start-lifecycle"], .error e)
      else ([], .error ("no lifecycle context matching provider id " ++ providerId))

/-- `startProvider`: dispatches to `startProviderLifecycle` when a
lifecycle is registered for the id; otherwise starts the first container
connection's lifecycle, requiring a `start` method and a connection
context; throws when the provider has no container connections. -/
def startProvider (s : RegistryState) (providerInternalId : String) :
    List String × Except String Unit :=
  match mget s.providers providerInternalId with
  | none => ([], .error ("no provider matching provider id " ++ providerInternalId))
  | some provider =>
    if (mget s.providerLifecycles providerInternalId).isSome then
      startProviderLifecycle s providerInternalId
    else
      match provider.containerConnections with
      | [] => ([], .error "No container connection found for provider")
      | connection :: _ =>
        match connection.lifecycle with
        | none => ([], .error "The container connection does not support start lifecycle")
        | some lifecycle =>
          match lifecycle.start with
          | none => ([], .error "The container connection does not support start lifecycle")
          | some outcome =>
            if s.connectionLifecycleContexts.contains connection then ([], outcome)
            else ([], .error "The connection does not have context to start")

/-- Join of the promises produced by mapping `start` over the autostart
capabilities: every promise has already been started by the map; the join
resolves with all values when all resolve, and rejects when any rejects
(the model picks the first rejection in registration order). -/
def promiseAll : List (Except String Unit) → Except String (List Unit)
  | [] => .ok []
  | x :: xs =>
    match x with
    | .error e => .error e
    | .ok u =>
      match promiseAll xs with
      | .error e => .error e
      | .ok us => .ok (u :: us)

/-- `runAutostart`: maps `start(logger)` over every registered autostart
capability — the map invokes every `start`, so each runs to its own
completion regardless of the others — and joins the results with
`Promise.all`. The first component records each invocation (capability
name and its own outcome); the second is the joined overall result. -/
def runAutostart (s : RegistryState) :
    List (String × Except String Unit) × Except String (List Unit) :=
  let invocations := s.providerAutostarts.map (fun kv => (kv.2.name, kv.2.start))
  (invocations, promiseAll (invocations.map Prod.snd))

/-- Calls made on the `PreflightChecksCallback` during `runPreflightChecks`. -/
inductive CbEvent where
  | startCheck (name : String)
  | endCheck (name : String) (successful : Bool) (description : String)
      (docLinks : Option String)
deriving DecidableEq, Repr

/-- The `for` loop of `runPreflightChecks`: each check is bracketed by
`startCheck`/`endCheck`; a thrown error is caught and reported as an
unsuccessful check carrying the error's message; an unsuccessful or
throwing check short-circuits the remaining ones with overall `false`. -/
def runChecks : List PreflightCheck → Bool × List CbEvent
  | [] => (true, [])
  | check :: rest =>
    let startEv := CbEvent.startCheck check.title
    match check.execute with
    | .ok r =>
      let endEv := CbEvent.endCheck check.title r.successful r.description r.docLinks
      if r.successful then
        let tail := runChecks rest
        (tail.1, startEv :: endEv :: tail.2)
      else (false, [startEv, endEv])
    | .error msg => (false, [startEv, CbEvent.endCheck check.title false msg none])

/-- Callback trace a single check produces when it is reached. -/
def traceOf (check : PreflightCheck) : List CbEvent :=
  match check.execute with
  | .ok r =>
    [CbEvent.startCheck check.title,
      CbEvent.endCheck check.title r.successful r.description r.docLinks]
  | .error msg =>
    [CbEvent.startCheck check.title, CbEvent.endCheck check.title false msg none]

/-- A check that ran and signaled success. -/
def checkSucceeded (check : PreflightCheck) : Prop :=
  ∃ r, check.execute = Except.ok r ∧ r.successful = true

/-- Boolean form of `checkSucceeded`. -/
def checkSucceededB (check : PreflightCheck) : Bool :=
  match check.execute with
  | .ok r => r.successful
  | .error _ => false

theorem checkSucceeded_iff (check : PreflightCheck) :
    checkSucceeded check ↔ checkSucceededB check = true := by
  unfold checkSucceeded checkSucceededB
  cases h : check.execute with
  | ok r => simp [h]
  | error e => simp [h]

instance (check : PreflightCheck) : Decidable (checkSucceeded check) :=
  decidable_of_iff _ (checkSucceeded_iff check).symm

/-- `runPreflightChecks`: selects the update capability when
`runUpdateChecks` is true and the install capability otherwise; throws
when none is registered; returns `false` with no callback activity when
the capability exposes no `preflightChecks`; otherwise runs the checks
sequentially in declared order. -/
def runPreflightChecks (s : RegistryState) (providerInternalId : String)
    (runUpdateChecks : Bool) : Except String (Bool × List CbEvent) :=
  let installOrUpdate :=
    if runUpdateChecks then mget s.providerUpdates providerInternalId
    else mget s.providerInstallations providerInternalId
  match installOrUpdate with
  | none => .error ("No matching installation for provider " ++ providerInternalId)
  | some cap =>
    match cap.preflightChecks with
    | none => .ok (false, [])
    | some checks => .ok (runChecks checks)

/-- Projection of a container connection into its info descriptor;
`lifecycleMethods` lists the present methods in the source's push order
(`delete`, `start`, `stop`). -/
structure ConnInfo where
  name : String
  status : String
  type : String
  socketPath : String
  lifecycleMethods : Option (List String)
deriving DecidableEq, Repr

def getProviderContainerConnectionInfo (connection : ContainerConnection) : ConnInfo :=
  { name := connection.name, status := connection.status, type := connection.type
    socketPath := connection.socketPath
    lifecycleMethods :=
      match connection.lifecycle with
      | none => none
      | some lf =>
        some ((if lf.delete.isSome then ["delete"] else []) ++
          (if lf.start.isSome then ["start"] else []) ++
          (if lf.stop.isSome then ["stop"] else [])) }

structure KubeConnInfo where
  name : String
  status : String
  apiURL : String
deriving DecidableEq, Repr

/-- The `ProviderInfo` projection built by `getProviderInfo` (pure
passthrough attributes such as links, images and detection checks are
elided; every field whose value the registry computes is kept). -/
structure ProviderInfo where
  id : String
  internalId : String
  name : String
  status : String
  version : Option String
  containerConnections : List ConnInfo
  kubernetesConnections : List KubeConnInfo
  containerProviderConnectionCreation : Bool
  installationSupport : Bool
  updateInfoVersion : Option String
  lifecycleMethods : Option (List String)
deriving DecidableEq, Repr

def getProviderInfo (s : RegistryState) (provider : ProviderImpl) : ProviderInfo :=
  { id := provider.id, internalId := provider.internalId, name := provider.name
    status := provider.status, version := provider.version
    containerConnections :=
      provider.containerConnections.map getProviderContainerConnectionInfo
    kubernetesConnections :=
      provider.kubernetesConnections.map (fun c =>
        { name := c.name, status := c.status, apiURL := c.apiURL })
    containerProviderConnectionCreation := provider.hasConnectionFactory
    installationSupport := (mget s.providerInstallations provider.internalId).isSome
    updateInfoVersion :=
      (mget s.providerUpdates provider.internalId).map InstallOrUpdate.version
    lifecycleMethods :=
      if (mget s.providerLifecycles provider.internalId).isSome then
        some ["start", "stop"]
      else none }

/-- Comparator of `getProviderInfos`: the source sorts with
`provider2.name.localeCompare(provider1.name)`, i.e. ascending in the
flipped name comparison, hence descending by name (`localeCompare` is
modelled as code-point comparison of the names). -/
def infoBefore (a b : ProviderInfo) : Prop := b.name ≤ a.name

instance : DecidableRel infoBefore :=
  fun a b => inferInstanceAs (Decidable (b.name ≤ a.name))

/-- `getProviderInfos`: projects every tracked provider (in insertion
order) and sorts the projections with the descending-name comparator. -/
def getProviderInfos (s : RegistryState) : List ProviderInfo :=
  List.insertionSort infoBefore
    (s.providers.map (fun kv => getProviderInfo s kv.2))

/-- `deleteProviderConnection`: resolves the provider, then the connection
whose endpoint socket path matches, requires the connection lifecycle and
its `delete` method, records the telemetry event, and returns the outcome
of the asynchronous `delete()`. The first component is the telemetry
trace (event name and tracked connection name). -/
def deleteProviderConnection (s : RegistryState) (internalProviderId : String)
    (info : ConnInfo) : List (String × String) × Except String Unit :=
  match mget s.providers internalProviderId with
  | none => ([], .error ("no provider matching provider id " ++ internalProviderId))
  | some provider =>
    match provider.containerConnections.find?
        (fun connection => connection.socketPath = info.socketPath) with
    | none =>
      ([], .error ("no container connection matching provider id " ++ internalProviderId))
    | some connection =>
      match connection.lifecycle with
      | none => ([], .error "The container connection does not support delete lifecycle")
      | some lifecycle =>
        match lifecycle.delete with
        | none =>
          ([], .error "The container connection does not support delete lifecycle")
        | some outcome => ([("deleteProviderConnection", info.name)], outcome)

/-! ### Listener registration -/

def addProviderContainerConnectionLifecycleListener (s : RegistryState)
    (listener : Nat) : RegistryState :=
  { s with containerConnectionLifecycleListeners :=
      s.containerConnectionLifecycleListeners ++ [listener] }

/-- `removeProviderContainerConnectionLifecycleListener`: computes the
listener's index in the container-connection listener list, but when found
splices the provider-lifecycle listener list at that index instead. -/
def removeProviderContainerConnectionLifecycleListener (s : RegistryState)
    (listener : Nat) : RegistryState :=
  if s.containerConnectionLifecycleListeners.contains listener then
    { s with lifecycleListeners :=
        (s.lifecycleListeners.eraseIdx (s.containerConnectionLifecycleListeners.indexOf listener)) }
  else s

def connCtxAdd (l : List ContainerConnection) (c : ContainerConnection) :
    List ContainerConnection :=
  if l.contains c then l else l ++ [c]

/-- `onDidRegisterContainerConnection`: creates the connection's
`LifecycleContext` and notifies every container-connection lifecycle
listener with the `register` event; the second component is the list of
listeners notified. -/
def onDidRegisterContainerConnection (s : RegistryState) (_provider : ProviderImpl)
    (containerProviderConnection : ContainerConnection) : RegistryState × List Nat :=
  ({ s with connectionLifecycleContexts :=
      connCtxAdd s.connectionLifecycleContexts containerProviderConnection },
    s.containerConnectionLifecycleListeners)

/-! ### Session traces for the internalId claim -/

/-- One registry operation performed during a session, as far as provider
identity allocation is concerned. -/
inductive SessionOp where
  | create (opts : ProviderOptions)
  | dispose (p : ProviderImpl)
deriving Repr

def applyOp (s : RegistryState) : SessionOp → RegistryState × List String
  | .create opts =>
    let r := createProvider s opts
    (r.1, [r.2.1.internalId])
  | .dispose p => ((disposeProvider s p).1, [])

/-- The internalIds assigned by the `createProvider` calls of a session,
in order. -/
def createdIds : List SessionOp → RegistryState → List String
  | [], _ => []
  | op :: ops, s =>
    let r := applyOp s op
    r.2 ++ createdIds ops r.1

def numCreates : List SessionOp → Nat
  | [] => 0
  | .create _ :: ops => numCreates ops + 1
  | .dispose _ :: ops => numCreates ops

/-! ### Decoding decimal renderings

A left inverse of `natToStr`, used to show renderings of distinct counter
values are distinct. -/

def charDigit (c : Char) : Nat := c.toNat - 48

def decToNatRev : List Nat → Nat
  | [] => 0
  | d :: ds => d + 10 * decToNatRev ds

def strToNat (s : String) : Nat := decToNatRev ((s.data.map charDigit).reverse)

theorem decToNatRev_decDigitsRev (n : Nat) : decToNatRev (decDigitsRev n) = n := by
  induction n using Nat.strong_induction_on with
  | _ n ih =>
    match n with
    | 0 => simp [decDigitsRev, decToNatRev]
    | m + 1 =>
      rw [decDigitsRev]
      simp only [decToNatRev]
      rw [ih ((m + 1) / 10) (Nat.div_lt_self (Nat.succ_pos m) (by omega))]
      omega

theorem decDigitsRev_lt (n : Nat) : ∀ d ∈ decDigitsRev n, d < 10 := by
  induction n using Nat.strong_induction_on with
  | _ n ih =>
    match n with
    | 0 => simp [decDigitsRev]
    | m + 1 =>
      rw [decDigitsRev]
      intro d hd
      rcases List.mem_cons.mp hd with h | h
      · omega
      · exact ih ((m + 1) / 10) (Nat.div_lt_self (Nat.succ_pos m) (by omega)) d h

theorem charDigit_digitChar : ∀ d, d < 10 → charDigit (digitChar d) = d := by decide

theorem map_charDigit_digitChar (l : List Nat) (h : ∀ d ∈ l, d < 10) :
    (l.map digitChar).map charDigit = l := by
  induction l with
  | nil => rfl
  | cons d ds ih =>
    simp only [List.map_cons]
    rw [charDigit_digitChar d (h d (List.mem_cons_self d ds)),
      ih (fun e he => h e (List.mem_cons_of_mem d he))]

theorem strToNat_natToStr (n : Nat) : strToNat (natToStr n) = n := by
  by_cases h0 : n = 0
  · subst h0; decide
  · unfold natToStr
    rw [if_neg h0]
    unfold strToNat
    show decToNatRev
      (((((decDigitsRev n).reverse.map digitChar)).map charDigit).reverse) = n
    rw [map_charDigit_digitChar _
      (fun d hd => decDigitsRev_lt n d (List.mem_reverse.mp hd))]
    rw [List.reverse_reverse]
    exact decToNatRev_decDigitsRev n

theorem natToStr_injective : Function.Injective natToStr := by
  intro a b h
  rw [← strToNat_natToStr a, ← strToNat_natToStr b, h]

/-! ### Association-list lemmas -/

theorem mget_mset_self {α : Type} (m : List (String × α)) (k : String) (v : α) :
    mget (mset m k v) k = some v := by
  induction m with
  | nil => simp [mset, mget]
  | cons kv rest ih =>
    by_cases h : kv.1 = k
    · simp [mset, h, mget]
    · simp [mset, h, mget, ih]

theorem mget_mset_ne {α : Type} (m : List (String × α)) (k k' : String) (v : α)
    (h : k' ≠ k) : mget (mset m k' v) k = mget m k := by
  induction m with
  | nil => simp [mset, mget, h]
  | cons kv rest ih =>
    by_cases hk : kv.1 = k'
    · simp [mset, hk, mget, h]
    · by_cases hk2 : kv.1 = k
      · simp [mset, hk, mget, hk2, Ne.symm h]
      · simp [mset, hk, mget, hk2, ih]

theorem mget_mdel {α : Type} (m : List (String × α)) (k : String) :
    mget (mdel m k) k = none := by
  induction m with
  | nil => rfl
  | cons kv rest ih =>
    by_cases h : kv.1 = k
    · simpa [mdel, h] using ih
    · simpa [mdel, mget, h] using ih

theorem ctxDel_not_mem (l : List String) (k : String) : k ∉ ctxDel l k := by
  intro h
  have := List.of_mem_filter h
  simp at this

/-! ### Shared lemmas for the claims -/

theorem promiseAll_ok_iff (l : List (Except String Unit)) :
    (∃ v, promiseAll l = .ok v) ↔ ∀ x ∈ l, x = .ok () := by
  induction l with
  | nil => simp [promiseAll]
  | cons x xs ih =>
    cases x with
    | ok u =>
      cases u
      constructor
      · intro ⟨v, hv⟩ y hy
        rcases List.mem_cons.mp hy with h | h
        · simp [h]
        · refine (ih.mp ?_) y h
          simp only [promiseAll] at hv
          cases hpa : promiseAll xs with
          | ok us => exact ⟨us, rfl⟩
          | error e => rw [hpa] at hv; cases hv
      · intro h
        have ⟨us, hus⟩ := ih.mpr (fun y hy => h y (List.mem_cons_of_mem _ hy))
        exact ⟨() :: us, by simp [promiseAll, hus]⟩
    | error e =>
      constructor
      · intro ⟨v, hv⟩
        simp [promiseAll] at hv
      · intro h
        exact absurd (h (Except.error e) (List.mem_cons_self _ _)) (by simp)

instance : IsTotal ProviderInfo infoBefore :=
  ⟨fun a b => le_total b.name a.name⟩

instance : IsTrans ProviderInfo infoBefore :=
  ⟨fun _ _ _ h1 h2 => le_trans h2 h1⟩

/-- Sample provider used by concrete witness instances. -/
def sampleProvider : ProviderImpl :=
  ⟨"crc", "0", "CRC", "unknown", none, [], [], false⟩

/-- Sample lifecycle used by concrete witness instances. -/
def sampleLifecycle : ProviderLifecycle :=
  ⟨false, Except.ok (), Except.ok ()⟩

/-- Sample registry tracking `sampleProvider` with a registered lifecycle. -/
def sampleRegistry : RegistryState :=
  { RegistryState.initial with
      providers := [("0", sampleProvider)]
      providerLifecycles := [("0", sampleLifecycle)] }

/-- Sample registry tracking `sampleProvider` without a lifecycle. -/
def sampleRegistryNoLifecycle : RegistryState :=
  { RegistryState.initial with providers := [("0", sampleProvider)] }

/-! ### Claim theorems -/

/-- C10: a listener added through
`addProviderContainerConnectionLifecycleListener` and then passed to
`removeProviderContainerConnectionLifecycleListener` is not removed from
the container-connection listener list — the removal splices the
provider-lifecycle listener list at the computed index instead — so the
listener is still among those notified of a subsequent container-connection
register event. -/
theorem c10_remove_splices_wrong_list (s : RegistryState) (l : Nat)
    (p : ProviderImpl) (conn : ContainerConnection) :
    (removeProviderContainerConnectionLifecycleListener
        (addProviderContainerConnectionLifecycleListener s l) l).containerConnectionLifecycleListeners
      = s.containerConnectionLifecycleListeners ++ [l]
    ∧ (removeProviderContainerConnectionLifecycleListener
        (addProviderContainerConnectionLifecycleListener s l) l).lifecycleListeners
      = s.lifecycleListeners.eraseIdx
          ((s.containerConnectionLifecycleListeners ++ [l]).indexOf l)
    ∧ l ∈ (onDidRegisterContainerConnection
        (removeProviderContainerConnectionLifecycleListener
          (addProviderContainerConnectionLifecycleListener s l) l) p conn).2 := by
  have hcont : (s.containerConnectionLifecycleListeners ++ [l]).contains l = true := by
    simp
  refine ⟨?_, ?_, ?_⟩
  · simp [removeProviderContainerConnectionLifecycleListener,
      addProviderContainerConnectionLifecycleListener, hcont]
  · simp [removeProviderContainerConnectionLifecycleListener,
      addProviderContainerConnectionLifecycleListener, hcont]
  · simp [onDidRegisterContainerConnection,
      removeProviderContainerConnectionLifecycleListener,
      addProviderContainerConnectionLifecycleListener, hcont]

/-- C5: `getProviderInfos` returns the projections of all tracked
providers (a permutation of the projection of the provider collection),
sorted by name in descending lexicographic order, for every registry
state and hence regardless of creation order. -/
theorem c5_provider_infos_sorted_desc (s : RegistryState) :
    List.Sorted infoBefore (getProviderInfos s)
      ∧ (getProviderInfos s).Perm
          (s.providers.map (fun kv => getProviderInfo s kv.2)) := by
  exact ⟨List.sorted_insertionSort infoBefore _, List.perm_insertionSort infoBefore _⟩

/-- C8: `runPreflightChecks` selects the update capability when
`runUpdateChecks` is true (ignoring the install map) and the install
capability when it is false (ignoring the update map); when the selected
capability exposes no pre-flight checks the call returns `false`
immediately with no callback activity, not an error. -/
theorem c8_preflight_capability_selection (s : RegistryState) (id : String) :
    (∀ cap, mget s.providerUpdates id = some cap → cap.preflightChecks = none →
      runPreflightChecks s id true = .ok (false, []))
    ∧ (∀ cap, mget s.providerInstallations id = some cap → cap.preflightChecks = none →
      runPreflightChecks s id false = .ok (false, []))
    ∧ (∀ x, runPreflightChecks { s with providerInstallations := x } id true
        = runPreflightChecks s id true)
    ∧ (∀ x, runPreflightChecks { s with providerUpdates := x } id false
        = runPreflightChecks s id false) := by
  refine ⟨?_, ?_, ?_, ?_⟩
  · intro cap hcap hpc; simp [runPreflightChecks, hcap, hpc]
  · intro cap hcap hpc; simp [runPreflightChecks, hcap, hpc]
  · intro x; simp [runPreflightChecks]
  · intro x; simp [runPreflightChecks]

/-- C8 witness. -/
theorem c8_preflight_capability_selection_witness :
    runPreflightChecks
      { RegistryState.initial with
          providerUpdates := [("7", { preflightChecks := none, version := "1" })] }
      "7" true = .ok (false, []) :=
  (c8_preflight_capability_selection _ "7").1
    { preflightChecks := none, version := "1" } (by decide) rfl

/-- C4: `runAutostart` invokes `start` on every registered autostart
capability — each invocation runs to its own completion regardless of the
others — and joins the outcomes with `Promise.all` semantics: the overall
result resolves exactly when every capability resolved; with one resolving
and one rejecting capability the overall call rejects while the resolving
capability's `start` was still invoked and completed successfully. -/
theorem c4_runAutostart_promise_all (s : RegistryState) :
    (∀ k a, (k, a) ∈ s.providerAutostarts →
      (a.name, a.start) ∈ (runAutostart s).1)
    ∧ ((∃ v, (runAutostart s).2 = .ok v) ↔
        ∀ kv ∈ s.providerAutostarts, kv.2.start = .ok ())
    ∧ (∀ k1 k2 n1 n2 msg,
        s.providerAutostarts = [(k1, ⟨n1, .ok ()⟩), (k2, ⟨n2, .error msg⟩)] →
        (runAutostart s).2 = .error msg
          ∧ (n1, Except.ok ()) ∈ (runAutostart s).1
          ∧ (n2, Except.error msg) ∈ (runAutostart s).1) := by
  refine ⟨?_, ?_, ?_⟩
  · intro k a h
    exact List.mem_map.mpr ⟨(k, a), h, rfl⟩
  · have := promiseAll_ok_iff ((s.providerAutostarts.map (fun kv => (kv.2.name, kv.2.start))).map Prod.snd)
    simp only [runAutostart]
    rw [this]
    constructor
    · intro h kv hkv
      exact h kv.2.start (by
        refine List.mem_map.mpr ⟨(kv.2.name, kv.2.start), List.mem_map.mpr ⟨kv, hkv, rfl⟩, rfl⟩)
    · intro h x hx
      rcases List.mem_map.mp hx with ⟨pair, hpair, hsnd⟩
      rcases List.mem_map.mp hpair with ⟨kv, hkv, hp⟩
      subst hp
      simp only at hsnd
      subst hsnd
      exact h kv hkv
  · intro k1 k2 n1 n2 msg hreg
    refine ⟨?_, ?_, ?_⟩
    · simp [runAutostart, hreg, promiseAll]
    · simp [runAutostart, hreg]
    · simp [runAutostart, hreg]

/-- C4 witness. -/
theorem c4_runAutostart_promise_all_witness :
    (runAutostart
      { RegistryState.initial with
          providerAutostarts :=
            [("0", { name := "a", start := .ok () }),
              ("1", { name := "b", start := .error "boom" })] }).2 = .error "boom" :=
  ((c4_runAutostart_promise_all _).2.2 "0" "1" "a" "b" "boom" rfl).1

/-- C2: `startProvider` dispatches to `startProviderLifecycle` exactly
when a lifecycle is registered for the id; without one it starts the first
container connection's lifecycle — requiring a `start` method and an
existing connection context — and throws when the provider has no
container connections; without a registered lifecycle no lifecycle-listener
event of `startProviderLifecycle` can be emitted through `startProvider`. -/
theorem c2_startProvider_dispatch (s : RegistryState) (id : String) (p : ProviderImpl) :
    (∀ lf, mget s.providerLifecycles id = some lf →
      startProvider s id = startProviderLifecycle s id)
    ∧ (mget s.providers id = some p → mget s.providerLifecycles id = none →
        (p.containerConnections = [] →
          startProvider s id = ([], .error "No container connection found for provider"))
        ∧ (∀ c rest, p.containerConnections = c :: rest →
            (c.lifecycle = none →
              startProvider s id
                = ([], .error "The container connection does not support start lifecycle"))
            ∧ (∀ clf, c.lifecycle = some clf → clf.start = none →
              startProvider s id
                = ([], .error "The container connection does not support start lifecycle"))
            ∧ (∀ clf o, c.lifecycle = some clf → clf.start = some o →
                (s.connectionLifecycleContexts.contains c = true →
                  startProvider s id = ([], o))
                ∧ (s.connectionLifecycleContexts.contains c = false →
                  startProvider s id
                    = ([], .error "The connection does not have context to start")))))
    ∧ (mget s.providerLifecycles id = none → (startProvider s id).1 = []) := by
  refine ⟨?_, ?_, ?_⟩
  · intro lf hlf
    cases hp : mget s.providers id with
    | none => simp [startProvider, startProviderLifecycle, hp]
    | some q => simp [startProvider, hp, hlf]
  · intro hp hn
    constructor
    · intro hcc
      simp [startProvider, hp, hn, hcc]
    · intro c rest hcc
      refine ⟨?_, ?_, ?_⟩
      · intro hcl
        simp [startProvider, hp, hn, hcc, hcl]
      · intro clf hcl hcs
        simp [startProvider, hp, hn, hcc, hcl, hcs]
      · intro clf o hcl hcs
        constructor
        · intro hctx
          have hctx' : c ∈ s.connectionLifecycleContexts := by simpa using hctx
          simp [startProvider, hp, hn, hcc, hcl, hcs, hctx']
        · intro hctx
          have hctx' : c ∉ s.connectionLifecycleContexts := by simpa using hctx
          simp [startProvider, hp, hn, hcc, hcl, hcs, hctx']
  · intro hn
    cases hp : mget s.providers id with
    | none => simp [startProvider, hp]
    | some q =>
      cases hcc : q.containerConnections with
      | nil => simp [startProvider, hp, hn, hcc]
      | cons c rest =>
        cases hcl : c.lifecycle with
        | none => simp [startProvider, hp, hn, hcc, hcl]
        | some clf =>
          cases hcs : clf.start with
          | none => simp [startProvider, hp, hn, hcc, hcl, hcs]
          | some o =>
            by_cases hctx : c ∈ s.connectionLifecycleContexts
            · simp [startProvider, hp, hn, hcc, hcl, hcs, hctx]
            · simp [startProvider, hp, hn, hcc, hcl, hcs, hctx]

/-- C2 witness. -/
theorem c2_startProvider_dispatch_witness :
    startProvider sampleRegistry "0" = startProviderLifecycle sampleRegistry "0" :=
  (c2_startProvider_dispatch sampleRegistry "0" sampleProvider).1 sampleLifecycle
    (by decide)

/-- C3: `runPreflightChecks` runs checks sequentially in declared order,
bracketing each reached check with `startCheck`/`endCheck`; a check that
throws is reported as unsuccessful with the thrown message and
short-circuits the remaining checks with overall result `false`; when all
checks succeed the full ordered trace is produced with result `true`, and
the overall result is `true` exactly when every check signaled success. -/
theorem c3_preflight_short_circuit :
    (∀ (pre : List PreflightCheck) (t msg : String) (rest : List PreflightCheck),
      (∀ c ∈ pre, checkSucceeded c) →
      runChecks (pre ++ { title := t, execute := .error msg } :: rest)
        = (false, pre.flatMap traceOf
            ++ [CbEvent.startCheck t, CbEvent.endCheck t false msg none]))
    ∧ (∀ checks : List PreflightCheck,
        (∀ c ∈ checks, checkSucceeded c) →
        runChecks checks = (true, checks.flatMap traceOf))
    ∧ (∀ checks : List PreflightCheck,
        (runChecks checks).1 = true ↔ ∀ c ∈ checks, checkSucceeded c) := by
  refine ⟨?_, ?_, ?_⟩
  · intro pre t msg rest hpre
    induction pre with
    | nil => simp [runChecks, traceOf]
    | cons c cs ih =>
      obtain ⟨r, hex, hsucc⟩ := hpre c (List.mem_cons_self c cs)
      have htail := ih (fun x hx => hpre x (List.mem_cons_of_mem c hx))
      simp only [List.cons_append, runChecks, hex]
      simp [hsucc, htail, traceOf, hex]
  · intro checks hall
    induction checks with
    | nil => simp [runChecks]
    | cons c cs ih =>
      obtain ⟨r, hex, hsucc⟩ := hall c (List.mem_cons_self c cs)
      have htail := ih (fun x hx => hall x (List.mem_cons_of_mem c hx))
      simp only [runChecks, hex]
      simp [hsucc, htail, traceOf, hex]
  · intro checks
    induction checks with
    | nil => simp [runChecks]
    | cons c cs ih =>
      cases hex : c.execute with
      | ok r =>
        by_cases hsucc : r.successful = true
        · simp only [runChecks, hex, hsucc, if_pos]
          rw [List.forall_mem_cons]
          constructor
          · intro h
            exact ⟨⟨r, hex, hsucc⟩, ih.mp h⟩
          · intro ⟨_, h⟩
            exact ih.mpr h
        · simp only [runChecks, hex, hsucc]
          constructor
          · intro h
            simp [if_neg hsucc] at h
          · intro h
            obtain ⟨r', hex', hsucc'⟩ := h c (List.mem_cons_self c cs)
            rw [hex] at hex'
            cases hex'
            exact absurd hsucc' hsucc
      | error e =>
        simp only [runChecks, hex]
        constructor
        · intro h
          cases h
        · intro h
          obtain ⟨r', hex', _⟩ := h c (List.mem_cons_self c cs)
          rw [hex] at hex'
          cases hex'

/-- C3 witness. -/
theorem c3_preflight_short_circuit_witness :
    runChecks
        [{ title := "c1", execute := .ok { successful := true, description := "ok", docLinks := none } },
          { title := "c2", execute := .error "boom" },
          { title := "c3", execute := .ok { successful := true, description := "ok", docLinks := none } }]
      = (false,
          [CbEvent.startCheck "c1", CbEvent.endCheck "c1" true "ok" none,
            CbEvent.startCheck "c2", CbEvent.endCheck "c2" false "boom" none]) := by
  have h := c3_preflight_short_circuit.1
    [{ title := "c1", execute := .ok { successful := true, description := "ok", docLinks := none } }]
    "c2" "boom"
    [{ title := "c3", execute := .ok { successful := true, description := "ok", docLinks := none } }]
    (by decide)
  simpa [traceOf] using h

/-- C6: registering a lifecycle and then disposing the returned handle
removes both the lifecycle and its context, so a subsequent
`startProviderLifecycle` on that provider throws the lifecycle not-found
error. -/
theorem c6_register_dispose_roundtrip (s : RegistryState) (p q : ProviderImpl)
    (lf : ProviderLifecycle) (hp : mget s.providers p.internalId = some q) :
    mget (registerLifecycleDispose p.internalId
        (registerLifecycle s p lf).1).1.providerLifecycles p.internalId = none
    ∧ p.internalId ∉ (registerLifecycleDispose p.internalId
        (registerLifecycle s p lf).1).1.providerLifecycleContexts
    ∧ startProviderLifecycle (registerLifecycleDispose p.internalId
        (registerLifecycle s p lf).1).1 p.internalId
      = ([], .error ("no provider lifecycle matching provider id " ++ p.internalId)) := by
  refine ⟨?_, ?_, ?_⟩
  · simp [registerLifecycle, registerLifecycleDispose, mget_mdel]
  · simp only [registerLifecycle, registerLifecycleDispose]
    exact ctxDel_not_mem _ _
  · have hlf : mget (registerLifecycleDispose p.internalId
        (registerLifecycle s p lf).1).1.providerLifecycles p.internalId = none := by
      simp [registerLifecycle, registerLifecycleDispose, mget_mdel]
    simp [startProviderLifecycle, registerLifecycle, registerLifecycleDispose, hp,
      mget_mdel]

/-- C6 witness. -/
theorem c6_register_dispose_roundtrip_witness :
    startProviderLifecycle
        (registerLifecycleDispose "0"
          (registerLifecycle sampleRegistryNoLifecycle sampleProvider
            sampleLifecycle).1).1 "0"
      = ([], .error ("no provider lifecycle matching provider id " ++ "0")) :=
  (c6_register_dispose_roundtrip sampleRegistryNoLifecycle sampleProvider sampleProvider
    sampleLifecycle (by decide)).2.2

theorem createdIds_eq (ops : List SessionOp) : ∀ s : RegistryState,
    createdIds ops s = (List.range' s.count (numCreates ops)).map natToStr := by
  induction ops with
  | nil => intro s; simp [createdIds, numCreates]
  | cons op ops ih =>
    intro s
    cases op with
    | create opts =>
      simp only [createdIds, applyOp, createProvider, numCreates]
      rw [ih]
      simp [List.range']
    | dispose p =>
      simp only [createdIds, applyOp, disposeProvider, numCreates]
      rw [ih]
      simp

/-- C9: across any session of `createProvider` and `disposeProvider`
operations from a fresh registry, the assigned internalIds are the decimal
renderings of the consecutive counter values, and no two `createProvider`
calls — dispose operations interleaved or not — ever assign the same
internalId. -/
theorem c9_internal_ids_unique (ops : List SessionOp) :
    createdIds ops RegistryState.initial
      = (List.range' 0 (numCreates ops)).map natToStr
    ∧ (createdIds ops RegistryState.initial).Nodup := by
  have h := createdIds_eq ops RegistryState.initial
  have h0 : RegistryState.initial.count = 0 := rfl
  rw [h0] at h
  refine ⟨h, ?_⟩
  rw [h]
  exact (List.nodup_range' 0 (numCreates ops)).map natToStr_injective

/-- Events of three successive reconciliation ticks over `sampleRegistry`
(freshly registered provider and lifecycle, no recorded baseline) whose
polls return `A`, `A`, `B`. -/
def threeTickEvents : List (String × String) :=
  (tick sampleRegistry (fun _ => "A")).2
    ++ (tick (tick sampleRegistry (fun _ => "A")).1 (fun _ => "A")).2
    ++ (tick (tick (tick sampleRegistry (fun _ => "A")).1 (fun _ => "A")).1
        (fun _ => "B")).2

/-- C1 counterexample: for a freshly registered provider whose lifecycle
polls return `A`, `A`, `B` on three successive ticks, two
`provider:update-status` events fire (the first poll already differs from
the absent baseline), not exactly one. -/
theorem c1_counterexample :
    (threeTickEvents.filter (fun e => e.1 = "provider:update-status")).length = 2
    ∧ ¬ (threeTickEvents.filter
        (fun e => e.1 = "provider:update-status")).length = 1 := by
  decide

/-- Registry state with replaced provider collection and status baselines
(record-update helper for theorem statements). -/
def setProvAndStatus (s : RegistryState) (pv : List (String × ProviderImpl))
    (st : List (String × String)) : RegistryState :=
  { s with providers := pv, providerStatuses := st }

/-- C1 (amended): on each tick the registry polls `status()` and, exactly
when the polled value differs from the last observed one, updates the
provider's stored status to the polled value, emits
`provider:update-status`, and records the new value as the next baseline
(on an equal poll the whole state is untouched); for a freshly registered
provider polled `A`, `A`, `B`, events fire on the first tick (no baseline
yet) and on the transition to `B` — the middle tick is silent — ending
with baseline `B` and stored provider status `B`. -/
theorem c1_status_reconciliation_amended :
    (∀ (i : String) (p : ProviderImpl) (lf : ProviderLifecycle) (s : RegistryState),
      s.providers = [(i, p)] →
      mget s.providerLifecycles i = some lf →
      s.providerStatuses = [] →
      (tick s (fun _ => "A")).2 = [("provider:update-status", i)]
      ∧ (tick (tick s (fun _ => "A")).1 (fun _ => "A")).2 = []
      ∧ (tick (tick (tick s (fun _ => "A")).1 (fun _ => "A")).1 (fun _ => "B")).2
          = [("provider:update-status", i)]
      ∧ mget (tick (tick (tick s (fun _ => "A")).1 (fun _ => "A")).1
          (fun _ => "B")).1.providerStatuses i = some "B"
      ∧ mget (tick s (fun _ => "A")).1.providers i = some (p.updateStatus "A")
      ∧ mget (tick (tick (tick s (fun _ => "A")).1 (fun _ => "A")).1
            (fun _ => "B")).1.providers i
          = some ((p.updateStatus "A").updateStatus "B")
      ∧ ((p.updateStatus "A").updateStatus "B").status = "B")
    ∧ (∀ (poll : String → String) (s : RegistryState) (k : String)
        (p : ProviderImpl) (lf : ProviderLifecycle),
        mget s.providers k = some p → mget s.providerLifecycles k = some lf →
        ((tickStep poll s k).2 = [("provider:update-status", k)]
            ↔ mget s.providerStatuses k ≠ some (poll k))
        ∧ ((tickStep poll s k).2 = [] ↔ mget s.providerStatuses k = some (poll k))
        ∧ mget (tickStep poll s k).1.providerStatuses k = some (poll k)
        ∧ (mget s.providerStatuses k ≠ some (poll k) →
            mget (tickStep poll s k).1.providers k = some (p.updateStatus (poll k))
              ∧ (p.updateStatus (poll k)).status = poll k)
        ∧ (mget s.providerStatuses k = some (poll k) →
            (tickStep poll s k).1 = s)) := by
  constructor
  · intro i p lf s hprov hlf hst
    have h1 : tick s (fun _ => "A")
        = (setProvAndStatus s [(i, p.updateStatus "A")] [(i, "A")],
            [("provider:update-status", i)]) := by
      simp [tick, mkeys, hprov, tickGo, tickStep, hlf, hst, mget, mset,
        setProvAndStatus]
    have h2 : tick (tick s (fun _ => "A")).1 (fun _ => "A")
        = ((tick s (fun _ => "A")).1, []) := by
      rw [h1]
      simp [tick, mkeys, tickGo, tickStep, hlf, mget, mset, setProvAndStatus]
    have h3 : tick (tick (tick s (fun _ => "A")).1 (fun _ => "A")).1 (fun _ => "B")
        = (setProvAndStatus s [(i, (p.updateStatus "A").updateStatus "B")] [(i, "B")],
            [("provider:update-status", i)]) := by
      rw [h2, h1]
      simp [tick, mkeys, tickGo, tickStep, hlf, mget, mset, setProvAndStatus]
    refine ⟨by rw [h1], by rw [h2], by rw [h3],
      by rw [h3]; simp [mget, setProvAndStatus],
      by rw [h1]; simp [mget, setProvAndStatus],
      by rw [h3]; simp [mget, setProvAndStatus],
      rfl⟩
  · intro poll s k p lf hp hl
    by_cases hd : mget s.providerStatuses k = some (poll k)
    · refine ⟨?_, ?_, ?_, ?_, ?_⟩ <;> simp [tickStep, hp, hl, hd]
    · refine ⟨?_, ?_, ?_, ?_, ?_⟩ <;>
        simp [tickStep, hp, hl, hd, mget_mset_self, ProviderImpl.updateStatus]

/-- C1 witness for the amended claim. -/
theorem c1_status_reconciliation_amended_witness :
    (tick sampleRegistry (fun _ => "A")).2 = [("provider:update-status", "0")] :=
  (c1_status_reconciliation_amended.1 "0" sampleProvider sampleLifecycle
    sampleRegistry rfl (by decide) rfl).1

/-- Container connection whose lifecycle has only a `delete` method, whose
asynchronous `delete()` rejects. -/
def sampleConn : ContainerConnection :=
  ⟨"Podman", "podman", "/sock", "started", some ⟨none, none, some (Except.error "boom")⟩⟩

def sampleConnProvider : ProviderImpl :=
  ⟨"crc", "0", "CRC", "unknown", none, [sampleConn], [], false⟩

/-- Registry tracking `sampleConnProvider`; note it holds no connection
`LifecycleContext` at all. -/
def sampleConnRegistry : RegistryState :=
  { RegistryState.initial with providers := [("0", sampleConnProvider)] }

def sampleConnInfo : ConnInfo :=
  ⟨"Podman", "started", "podman", "/sock", some ["delete"]⟩

/-- C7 counterexample: with no `LifecycleContext` registered for the
connection and a rejecting `delete`, `deleteProviderConnection` neither
raises a missing-context error nor withholds the telemetry event: the
telemetry fires and the rejection of the underlying `delete` is returned,
so telemetry is not emitted "only on success". -/
theorem c7_counterexample :
    (deleteProviderConnection sampleConnRegistry "0" sampleConnInfo).1
        = [("deleteProviderConnection", "Podman")]
    ∧ (deleteProviderConnection sampleConnRegistry "0" sampleConnInfo).2
        = .error "boom"
    ∧ sampleConnRegistry.connectionLifecycleContexts = []
    ∧ ¬ ((deleteProviderConnection sampleConnRegistry "0" sampleConnInfo).1 ≠ []
        → (deleteProviderConnection sampleConnRegistry "0" sampleConnInfo).2
            = .ok ()) := by
  decide

/-- C7 (amended): `deleteProviderConnection` resolves the target
connection by matching its endpoint socket path, throws when the provider
or matching connection is missing or when the connection's lifecycle lacks
a `delete` method, requires no `LifecycleContext`, and records the
telemetry event once the lifecycle check passes — before the underlying
`delete` runs, hence regardless of its outcome. -/
theorem c7_delete_connection_amended (s : RegistryState) (id : String)
    (info : ConnInfo) :
    (mget s.providers id = none →
      deleteProviderConnection s id info
        = ([], .error ("no provider matching provider id " ++ id)))
    ∧ (∀ p, mget s.providers id = some p →
        p.containerConnections.find? (fun c => c.socketPath = info.socketPath) = none →
        deleteProviderConnection s id info
          = ([], .error ("no container connection matching provider id " ++ id)))
    ∧ (∀ p conn, mget s.providers id = some p →
        p.containerConnections.find? (fun c => c.socketPath = info.socketPath)
          = some conn →
        conn.lifecycle = none →
        deleteProviderConnection s id info
          = ([], .error "The container connection does not support delete lifecycle"))
    ∧ (∀ p conn clf, mget s.providers id = some p →
        p.containerConnections.find? (fun c => c.socketPath = info.socketPath)
          = some conn →
        conn.lifecycle = some clf → clf.delete = none →
        deleteProviderConnection s id info
          = ([], .error "The container connection does not support delete lifecycle"))
    ∧ (∀ p conn clf o, mget s.providers id = some p →
        p.containerConnections.find? (fun c => c.socketPath = info.socketPath)
          = some conn →
        conn.lifecycle = some clf → clf.delete = some o →
        deleteProviderConnection s id info
          = ([("deleteProviderConnection", info.name)], o))
    ∧ (∀ ctxs, deleteProviderConnection
        { s with connectionLifecycleContexts := ctxs } id info
        = deleteProviderConnection s id info) := by
  refine ⟨?_, ?_, ?_, ?_, ?_, ?_⟩
  · intro hp; simp [deleteProviderConnection, hp]
  · intro p hp hf; simp [deleteProviderConnection, hp, hf]
  · intro p conn hp hf hcl; simp [deleteProviderConnection, hp, hf, hcl]
  · intro p conn clf hp hf hcl hdel
    simp [deleteProviderConnection, hp, hf, hcl, hdel]
  · intro p conn clf o hp hf hcl hdel
    simp [deleteProviderConnection, hp, hf, hcl, hdel]
  · intro ctxs; rfl

/-- C7 witness for the amended claim. -/
theorem c7_delete_connection_amended_witness :
    deleteProviderConnection sampleConnRegistry "0" sampleConnInfo
      = ([("deleteProviderConnection", "Podman")], .error "boom") :=
  (c7_delete_connection_amended sampleConnRegistry "0" sampleConnInfo).2.2.2.2.1
    sampleConnProvider sampleConn ⟨none, none, some (Except.error "boom")⟩
    (Except.error "boom") (by decide) (by decide) rfl rfl

end ProviderRegistry
